import Mathlib

/-!
Shallow embedding of the tool-dispatch layer of the Ransomware.live MCP
server (src/server.py): the `RansomwareLiveAPI` client methods, the
`handle_call_tool` dispatcher, and the rendering of results into text
payloads.  The upstream HTTP client (httpx) is modelled as a function from
a request to an HTTP-level result; each client method records the request
it issues so that "the upstream was never invoked" is observable as an
empty request log.
-/

/-- A JSON value as returned by `response.json()` in the source.  Numbers are
modelled as integers (no claim depends on float payloads). -/
inductive Json where
  | null : Json
  | bool : Bool → Json
  | num : Int → Json
  | str : String → Json
  | arr : List Json → Json
  | obj : List (String × Json) → Json
deriving Repr

/-- Python truthiness of a JSON value, as used by `if result:` in
`handle_call_tool` (line 555): `None`, `False`, `0`, `""`, `[]`, `{}` are
falsy, everything else truthy. -/
def jsonTruthy : Json → Bool
  | .null => false
  | .bool b => b
  | .num n => n != 0
  | .str s => s != ""
  | .arr l => !l.isEmpty
  | .obj l => !l.isEmpty

/-- An upstream GET request: resolved path plus query parameters, in the
insertion order the source builds them. -/
structure Request where
  path : String
  params : List (String × String)
deriving Repr, DecidableEq

/-- The HTTP-level outcome of issuing a request, as seen through httpx:
either a response (status code, raw body text, and the outcome of parsing
the body as JSON, which `response.json()` performs), or a transport-level
error (connection failure, timeout, ...). -/
inductive HttpResult where
  | response (status : Nat) (text : String) (parsed : Except String Json)
  | transportError (msg : String)

/-- The upstream client capability: a deterministic function from request to
HTTP result. -/
abbrev Upstream : Type := Request → HttpResult

/-- The exceptions that can propagate out of a client method into the
try block of the dispatcher: `httpx.HTTPStatusError` (raised by
`raise_for_status` for status >= 400, carrying the status code and body
text), other `httpx.HTTPError` (transport failures), `ValueError`
(raised by validation in the handler and in `list_victims`), and
`json.JSONDecodeError` (raised by `response.json()` on an unparseable
body). -/
inductive ClientError where
  | httpStatusError (status : Nat) (body : String)
  | httpError (msg : String)
  | valueError (msg : String)
  | jsonError (msg : String)
deriving Repr, DecidableEq

/-- The error taxonomy of the specification (section 7), assigned to each
exception class: validation `ValueError`s are caller-side `InvalidRequest`;
transport-level `httpx.HTTPError` is `TransportError`; an error status or an
unparseable body from the upstream is `UpstreamError`. -/
inductive ErrorKind where
  | InvalidRequest
  | TransportError
  | UpstreamError
deriving Repr, DecidableEq

def ClientError.kind : ClientError → ErrorKind
  | .httpStatusError _ _ => .UpstreamError
  | .httpError _ => .TransportError
  | .valueError _ => .InvalidRequest
  | .jsonError _ => .UpstreamError

/-- Issue a request through the upstream client and post-process the
response exactly as every `RansomwareLiveAPI` method does:
`raise_for_status()` turns a status >= 400 into `HTTPStatusError`, then
`response.json()` parses the body or raises a decode error. -/
def apiIssue (u : Upstream) (r : Request) : Except ClientError Json :=
  match u r with
  | .transportError m => .error (.httpError m)
  | .response status text parsed =>
    if 400 ≤ status then .error (.httpStatusError status text)
    else match parsed with
      | .error m => .error (.jsonError m)
      | .ok j => .ok j

/-- A client method that performs a call: the result of `apiIssue` together
with the one-element log of the request it issued. -/
def issue (u : Upstream) (r : Request) : Except ClientError Json × List Request :=
  (apiIssue u r, [r])

namespace RansomwareLiveAPI

/-- Python truthiness guard used when building query parameter dicts:
`if group: params["group"] = group` adds the pair only when the value is
neither `None` nor the empty string. -/
def pushIf (k : String) (v : Option String) : List (String × String) :=
  match v with
  | none => []
  | some s => if s == "" then [] else [(k, s)]

def list_sectors (u : Upstream) : Except ClientError Json × List Request :=
  issue u ⟨"/listsectors", []⟩

def list_groups (u : Upstream) : Except ClientError Json × List Request :=
  issue u ⟨"/listgroups", []⟩

def get_group_info (u : Upstream) (group_name : String) :
    Except ClientError Json × List Request :=
  issue u ⟨"/groups/" ++ group_name, []⟩

/-- The message of the `ValueError` raised by `list_victims` (and by the
handler) when no filter parameter is given. -/
def filterRequiredMsg : String :=
  "At least one filter parameter is required (group, sector, country, year, or month)"

/-- The `params` dict built by `RansomwareLiveAPI.list_victims`, in source
insertion order. -/
def listVictimsParams (group sector country year month : Option String) :
    List (String × String) :=
  pushIf "group" group ++ pushIf "sector" sector ++ pushIf "country" country ++
    pushIf "year" year ++ pushIf "month" month

def list_victims (u : Upstream) (group sector country year month : Option String) :
    Except ClientError Json × List Request :=
  if (listVictimsParams group sector country year month).isEmpty then
    (.error (.valueError filterRequiredMsg), [])
  else issue u ⟨"/victims", listVictimsParams group sector country year month⟩

def get_victim_info (u : Upstream) (victim_id : String) :
    Except ClientError Json × List Request :=
  issue u ⟨"/victim/" ++ victim_id, []⟩

def search_victims (u : Upstream) (query : String)
    (group_name sector_name country : Option String) :
    Except ClientError Json × List Request :=
  issue u ⟨"/victims/search",
    ("q", query) :: (pushIf "group" group_name ++ pushIf "sector" sector_name ++
      pushIf "country" country)⟩

def get_recent_victims (u : Upstream) (order : String) :
    Except ClientError Json × List Request :=
  issue u ⟨"/victims/recent", [("order", order)]⟩

def get_stats (u : Upstream) : Except ClientError Json × List Request :=
  issue u ⟨"/stats", []⟩

def get_ransomnotes (u : Upstream) : Except ClientError Json × List Request :=
  issue u ⟨"/ransomnotes", []⟩

def get_ransomnotes_by_group (u : Upstream) (group_name : String) :
    Except ClientError Json × List Request :=
  issue u ⟨"/ransomnotes/" ++ group_name, []⟩

def get_ransomnote_content (u : Upstream) (group_name note_name : String) :
    Except ClientError Json × List Request :=
  issue u ⟨"/ransomnotes/" ++ group_name ++ "/" ++ note_name, []⟩

end RansomwareLiveAPI

/-- The argument bundle given to `handle_call_tool`:
`Optional[Dict[str, Any]]`, with string values (the whole catalog declares
string parameters). -/
abbrev Bundle : Type := Option (List (String × String))

/-- `arguments.get(k)` / `k in arguments`, with `None` treated as having no
keys. -/
def bget (b : Bundle) (k : String) : Option String :=
  match b with
  | none => none
  | some l => l.lookup k

/-- Python truthiness of the bundle itself: `not arguments` is true when the
bundle is `None` or the empty dict. -/
def bundleFalsy (b : Bundle) : Bool :=
  match b with
  | none => true
  | some l => l.isEmpty

/-- Python truthiness of an optional string, as used by
`any([group, sector, country, year, month])`: `None` and `""` are falsy. -/
def truthyS : Option String → Bool
  | none => false
  | some s => !(s == "")

/-- The eleven tool names advertised by `handle_list_tools`, in declaration
order. -/
def toolNames : List String :=
  ["list_sectors", "list_groups", "get_group_info", "list_victims",
   "get_victim_info", "search_victims", "get_recent_victims", "get_stats",
   "get_ransomnotes", "get_ransomnotes_by_group", "get_ransomnote_content"]

/-- The value-pattern regex that `handle_list_tools` declares for the
`year` parameter of `list_victims` in its inputSchema. -/
def yearPattern : String := "^\\d\x7b4\x7d$"

/-- The value-pattern regex that `handle_list_tools` declares for the
`month` parameter of `list_victims` in its inputSchema. -/
def monthPattern : String := "^(0[1-9]|1[0-2])$"

/-- Modelled from the spec: the semantics of the declared `yearPattern`
regex (a string of exactly four digits); the source only states the regex
in the advertised schema and contains no matching code. -/
def matchesYearPattern (s : String) : Bool :=
  s.length == 4 && s.toList.all Char.isDigit

/-- Modelled from the spec: the semantics of the declared `monthPattern`
regex (the two-digit strings 01 to 12); the source only states the regex in
the advertised schema and contains no matching code. -/
def matchesMonthPattern (s : String) : Bool :=
  ["01", "02", "03", "04", "05", "06",
   "07", "08", "09", "10", "11", "12"].contains s

/-- The body of the `try` block of `handle_call_tool` (src/server.py lines
463-566, before result formatting): route on the tool name through the
if/elif chain, perform inline validation, and call the matching client
method.  Validation failures are the `ValueError`s the source raises;
the second component is the log of upstream requests issued. -/
def callToolBody (u : Upstream) (name : String) (args : Bundle) :
    Except ClientError Json × List Request :=
  if name == "list_sectors" then
    RansomwareLiveAPI.list_sectors u
  else if name == "list_groups" then
    RansomwareLiveAPI.list_groups u
  else if name == "get_group_info" then
    if bundleFalsy args then (.error (.valueError "group_name is required"), [])
    else match bget args "group_name" with
      | none => (.error (.valueError "group_name is required"), [])
      | some g => RansomwareLiveAPI.get_group_info u g
  else if name == "list_victims" then
    if !(truthyS (if bundleFalsy args then none else bget args "group") ||
         truthyS (if bundleFalsy args then none else bget args "sector") ||
         truthyS (if bundleFalsy args then none else bget args "country") ||
         truthyS (if bundleFalsy args then none else bget args "year") ||
         truthyS (if bundleFalsy args then none else bget args "month")) then
      (.error (.valueError RansomwareLiveAPI.filterRequiredMsg), [])
    else
      RansomwareLiveAPI.list_victims u
        (if bundleFalsy args then none else bget args "group")
        (if bundleFalsy args then none else bget args "sector")
        (if bundleFalsy args then none else bget args "country")
        (if bundleFalsy args then none else bget args "year")
        (if bundleFalsy args then none else bget args "month")
  else if name == "get_victim_info" then
    if bundleFalsy args then (.error (.valueError "victim_id is required"), [])
    else match bget args "victim_id" with
      | none => (.error (.valueError "victim_id is required"), [])
      | some v => RansomwareLiveAPI.get_victim_info u v
  else if name == "search_victims" then
    if bundleFalsy args then (.error (.valueError "query is required"), [])
    else match bget args "query" with
      | none => (.error (.valueError "query is required"), [])
      | some q =>
        RansomwareLiveAPI.search_victims u q (bget args "group_name")
          (bget args "sector_name") (bget args "country")
  else if name == "get_recent_victims" then
    RansomwareLiveAPI.get_recent_victims u
      (if bundleFalsy args then "discovered"
       else (bget args "order").getD "discovered")
  else if name == "get_stats" then
    RansomwareLiveAPI.get_stats u
  else if name == "get_ransomnotes" then
    RansomwareLiveAPI.get_ransomnotes u
  else if name == "get_ransomnotes_by_group" then
    if bundleFalsy args then (.error (.valueError "group_name is required"), [])
    else match bget args "group_name" with
      | none => (.error (.valueError "group_name is required"), [])
      | some g => RansomwareLiveAPI.get_ransomnotes_by_group u g
  else if name == "get_ransomnote_content" then
    if bundleFalsy args then
      (.error (.valueError "group_name and note_name are required"), [])
    else match bget args "group_name" with
      | none => (.error (.valueError "group_name is required"), [])
      | some g => match bget args "note_name" with
        | none => (.error (.valueError "note_name is required"), [])
        | some n => RansomwareLiveAPI.get_ransomnote_content u g n
  else
    (.error (.valueError ("Unknown tool: " ++ name)), [])

/-- The uniform response envelope: a successful payload, the sentinel for a
falsy payload ("No data returned from API"), or a failure carrying the
exception that was caught. -/
inductive DispatchResult where
  | success (payload : Json)
  | noData
  | failure (e : ClientError)

def DispatchResult.isSuccess : DispatchResult → Bool
  | .success _ => true
  | _ => false

/-- The result formatting at the end of the `try` block plus the `except`
chain: a truthy result is a success, a falsy result is the no-data
sentinel, and a caught exception is a failure. -/
def finishResult : Except ClientError Json → DispatchResult
  | .ok j => if jsonTruthy j then .success j else .noData
  | .error e => .failure e

/-- Full dispatch of one tool call: the envelope together with the log of
upstream requests issued. -/
def callToolResult (u : Upstream) (name : String) (args : Bundle) :
    DispatchResult × List Request :=
  let p := callToolBody u name args
  (finishResult p.1, p.2)

/-- Two spaces of indentation per nesting level, as `json.dumps(result,
indent=2)` produces. -/
def indentStr (lvl : Nat) : String :=
  String.mk (List.replicate (2 * lvl) ' ')

/-- JSON string escaping used by `json.dumps` for the characters that can
appear in our payload model. -/
def escChar (c : Char) : String :=
  if c = '"' then "\\\""
  else if c = '\\' then "\\\\"
  else if c = '\n' then "\\n"
  else if c = '\t' then "\\t"
  else if c = '\r' then "\\r"
  else String.singleton c

def escapeString (s : String) : String :=
  String.join (s.toList.map escChar)

def joinSep (sep : String) : List String → String
  | [] => ""
  | [x] => x
  | x :: y :: xs => x ++ sep ++ joinSep sep (y :: xs)

mutual

/-- Model of `json.dumps(x, indent=2)` at nesting level `lvl`: scalars
inline, containers one element per line with two extra spaces of indent,
empty containers inline. -/
def dumpsVal : Nat → Json → String
  | _, .null => "null"
  | _, .bool true => "true"
  | _, .bool false => "false"
  | _, .num n => toString n
  | _, .str s => "\"" ++ escapeString s ++ "\""
  | _, .arr [] => "[]"
  | lvl, .arr (j :: l) =>
    "[\n" ++ joinSep ",\n" (dumpsElems (lvl + 1) (j :: l)) ++ "\n" ++
      indentStr lvl ++ "]"
  | _, .obj [] => "\x7b\x7d"
  | lvl, .obj (f :: l) =>
    "\x7b\n" ++ joinSep ",\n" (dumpsFields (lvl + 1) (f :: l)) ++ "\n" ++
      indentStr lvl ++ "\x7d"

def dumpsElems : Nat → List Json → List String
  | _, [] => []
  | lvl, j :: l => (indentStr lvl ++ dumpsVal lvl j) :: dumpsElems lvl l

def dumpsFields : Nat → List (String × Json) → List String
  | _, [] => []
  | lvl, (k, v) :: l =>
    (indentStr lvl ++ "\"" ++ escapeString k ++ "\": " ++ dumpsVal lvl v) ::
      dumpsFields lvl l

end

def Json.dumps (j : Json) : String := dumpsVal 0 j

/-- The message text of the error string each `except` branch produces
(after the `Error: ` prefix): `HTTPStatusError` renders the status code and
raw body, `HTTPError` the transport message, and the generic `Exception`
branch renders `str(e)`. -/
def errorText : ClientError → String
  | .httpStatusError status body => "API Error " ++ toString status ++ ": " ++ body
  | .httpError m => "Failed to fetch data from API - " ++ m
  | .valueError m => m
  | .jsonError m => m

/-- Rendering of the envelope into the returned `List[TextContent]` (each
element one text payload): pretty-printed JSON on success, the sentinel
text on a falsy result, and an `Error: `-prefixed string on failure. -/
def renderResult : DispatchResult → List String
  | .success j => [j.dumps]
  | .noData => ["No data returned from API"]
  | .failure e => ["Error: " ++ errorText e]

/-- The complete `handle_call_tool` function: dispatch and render. -/
def handle_call_tool (u : Upstream) (name : String) (args : Bundle) :
    List String :=
  renderResult (callToolResult u name args).1

/-- A stateful upstream client: the module-global `api_client` holds a
long-lived `httpx.Client` whose hidden connection state may evolve with
each issued request.  `σ` is that hidden state. -/
abbrev UpstreamS (σ : Type) : Type := Request → σ → HttpResult × σ

/-- The pure view of a stateful client at a fixed hidden state. -/
def clientAt {σ : Type} (u : UpstreamS σ) (s : σ) : Upstream :=
  fun r => (u r s).1

/-- Dispatch against the stateful client: the envelope is produced from the
client at the current hidden state (each dispatch issues at most one
request), and the hidden state advances through the issued requests. -/
def callToolS {σ : Type} (u : UpstreamS σ) (name : String) (args : Bundle)
    (s : σ) : DispatchResult × σ :=
  let p := callToolResult (clientAt u s) name args
  (p.1, p.2.foldl (fun st r => (u r st).2) s)

/-- Upstream double: every request succeeds with status 200 and the truthy
payload `[1]`. -/
def okUpstream : Upstream :=
  fun _ => .response 200 "[1]" (.ok (.arr [.num 1]))

/-- Upstream double: every request succeeds with status 200 and the empty
JSON list as payload. -/
def emptyListUpstream : Upstream :=
  fun _ => .response 200 "[]" (.ok (.arr []))

/-- Upstream double: every request fails with status 404 and body
`{"error":"not found"}`. -/
def notFoundUpstream : Upstream :=
  fun _ => .response 404 "\x7b\"error\":\"not found\"\x7d"
    (.ok (.obj [("error", .str "not found")]))

/-- Deterministic stateful upstream double: the response never depends on
the hidden state, but the hidden state counts the issued requests. -/
def countingUpstream : UpstreamS Nat :=
  fun _ s => (.response 200 "[1]" (.ok (.arr [.num 1])), s + 1)

example : (callToolBody okUpstream "list_victims" (some [("year", "99")])).2 =
    [⟨"/victims", [("year", "99")]⟩] := by decide
example : (callToolBody okUpstream "get_group_info" (some [("group_name", "")])).2 =
    [⟨"/groups/", []⟩] := by decide
example : (callToolBody okUpstream "get_recent_victims" none).2 =
    [⟨"/victims/recent", [("order", "discovered")]⟩] := by decide
example : handle_call_tool emptyListUpstream "get_stats" none =
    ["No data returned from API"] := by rfl
example : handle_call_tool notFoundUpstream "get_stats" none =
    ["Error: API Error 404: \x7b\"error\":\"not found\"\x7d"] := by rfl
example : handle_call_tool okUpstream "does_not_exist" none =
    ["Error: Unknown tool: does_not_exist"] := by rfl
example : handle_call_tool okUpstream "list_victims" (some [("foo", "bar")]) =
    ["Error: " ++ RansomwareLiveAPI.filterRequiredMsg] := by rfl
example : handle_call_tool okUpstream "get_stats" none =
    ["[\n  1\n]"] := by rfl
example : (callToolS countingUpstream "get_stats" none 0).2 = 1 := by rfl

/-- Every branch of the handler either raises a validation error without
contacting the upstream, or performs exactly one upstream call. -/
theorem callToolBody_shape (u : Upstream) (name : String) (args : Bundle) :
    (∃ e, callToolBody u name args = (.error (.valueError e), [])) ∨
    (∃ r, callToolBody u name args = (apiIssue u r, [r])) := by
  by_cases h1 : name = "list_sectors"
  · subst h1; exact Or.inr ⟨_, rfl⟩
  by_cases h2 : name = "list_groups"
  · subst h2; exact Or.inr ⟨_, rfl⟩
  by_cases h3 : name = "get_group_info"
  · subst h3
    have h : ∀ q, callToolBody u "get_group_info" args = q →
        (∃ e, q = (.error (.valueError e), [])) ∨ (∃ r, q = (apiIssue u r, [r])) := by
      intro q hq
      unfold callToolBody RansomwareLiveAPI.get_group_info issue at hq
      norm_num at hq
      repeat' split at hq
      all_goals
        first
        | exact Or.inl ⟨_, hq.symm⟩
        | exact Or.inr ⟨_, hq.symm⟩
    exact h _ rfl
  by_cases h4 : name = "list_victims"
  · subst h4
    have h : ∀ q, callToolBody u "list_victims" args = q →
        (∃ e, q = (.error (.valueError e), [])) ∨ (∃ r, q = (apiIssue u r, [r])) := by
      intro q hq
      unfold callToolBody RansomwareLiveAPI.list_victims issue at hq
      norm_num at hq
      repeat' split at hq
      all_goals
        first
        | exact Or.inl ⟨_, hq.symm⟩
        | exact Or.inr ⟨_, hq.symm⟩
    exact h _ rfl
  by_cases h5 : name = "get_victim_info"
  · subst h5
    have h : ∀ q, callToolBody u "get_victim_info" args = q →
        (∃ e, q = (.error (.valueError e), [])) ∨ (∃ r, q = (apiIssue u r, [r])) := by
      intro q hq
      unfold callToolBody RansomwareLiveAPI.get_victim_info issue at hq
      norm_num at hq
      repeat' split at hq
      all_goals
        first
        | exact Or.inl ⟨_, hq.symm⟩
        | exact Or.inr ⟨_, hq.symm⟩
    exact h _ rfl
  by_cases h6 : name = "search_victims"
  · subst h6
    have h : ∀ q, callToolBody u "search_victims" args = q →
        (∃ e, q = (.error (.valueError e), [])) ∨ (∃ r, q = (apiIssue u r, [r])) := by
      intro q hq
      unfold callToolBody RansomwareLiveAPI.search_victims issue at hq
      norm_num at hq
      repeat' split at hq
      all_goals
        first
        | exact Or.inl ⟨_, hq.symm⟩
        | exact Or.inr ⟨_, hq.symm⟩
    exact h _ rfl
  by_cases h7 : name = "get_recent_victims"
  · subst h7; exact Or.inr ⟨_, rfl⟩
  by_cases h8 : name = "get_stats"
  · subst h8; exact Or.inr ⟨_, rfl⟩
  by_cases h9 : name = "get_ransomnotes"
  · subst h9; exact Or.inr ⟨_, rfl⟩
  by_cases h10 : name = "get_ransomnotes_by_group"
  · subst h10
    have h : ∀ q, callToolBody u "get_ransomnotes_by_group" args = q →
        (∃ e, q = (.error (.valueError e), [])) ∨ (∃ r, q = (apiIssue u r, [r])) := by
      intro q hq
      unfold callToolBody RansomwareLiveAPI.get_ransomnotes_by_group issue at hq
      norm_num at hq
      repeat' split at hq
      all_goals
        first
        | exact Or.inl ⟨_, hq.symm⟩
        | exact Or.inr ⟨_, hq.symm⟩
    exact h _ rfl
  by_cases h11 : name = "get_ransomnote_content"
  · subst h11
    have h : ∀ q, callToolBody u "get_ransomnote_content" args = q →
        (∃ e, q = (.error (.valueError e), [])) ∨ (∃ r, q = (apiIssue u r, [r])) := by
      intro q hq
      unfold callToolBody RansomwareLiveAPI.get_ransomnote_content issue at hq
      norm_num at hq
      repeat' split at hq
      all_goals
        first
        | exact Or.inl ⟨_, hq.symm⟩
        | exact Or.inr ⟨_, hq.symm⟩
    exact h _ rfl
  refine Or.inl ⟨"Unknown tool: " ++ name, ?_⟩
  have b1 := beq_eq_false_iff_ne.mpr h1
  have b2 := beq_eq_false_iff_ne.mpr h2
  have b3 := beq_eq_false_iff_ne.mpr h3
  have b4 := beq_eq_false_iff_ne.mpr h4
  have b5 := beq_eq_false_iff_ne.mpr h5
  have b6 := beq_eq_false_iff_ne.mpr h6
  have b7 := beq_eq_false_iff_ne.mpr h7
  have b8 := beq_eq_false_iff_ne.mpr h8
  have b9 := beq_eq_false_iff_ne.mpr h9
  have b10 := beq_eq_false_iff_ne.mpr h10
  have b11 := beq_eq_false_iff_ne.mpr h11
  simp only [callToolBody, b1, b2, b3, b4, b5, b6, b7, b8, b9, b10, b11,
    Bool.false_eq_true, if_false]

/-- C1: for every operation name and every argument bundle, dispatch
returns a well-formed envelope rendered as exactly one text payload, and
every failure (validation, transport, upstream HTTP error, any other
exception) is rendered as an `Error: `-prefixed text payload; no
exception or failure signal escapes (the dispatcher is a total function
into envelopes by construction). -/
theorem dispatch_always_returns_envelope (u : Upstream) (name : String)
    (args : Bundle) :
    ∃ t, handle_call_tool u name args = [t] ∧
      ∀ e, (callToolResult u name args).1 = .failure e →
        handle_call_tool u name args = ["Error: " ++ errorText e] := by
  cases hr : (callToolResult u name args).1 with
  | success j =>
    exact ⟨j.dumps, by simp [handle_call_tool, hr, renderResult],
      fun e he => by cases he⟩
  | noData =>
    exact ⟨"No data returned from API",
      by simp [handle_call_tool, hr, renderResult],
      fun e he => by cases he⟩
  | failure e0 =>
    refine ⟨"Error: " ++ errorText e0,
      by simp [handle_call_tool, hr, renderResult], fun e he => ?_⟩
    cases he
    simp [handle_call_tool, hr, renderResult]

/-- C3: for every operation name outside the catalog of eleven tools and
every argument bundle, dispatch raises the `Unknown tool: <name>`
`ValueError`, classified `InvalidRequest`, and the upstream client is
never invoked (empty request log). -/
theorem unknown_tool_invalid_request (u : Upstream) (name : String)
    (args : Bundle) (h : name ∉ toolNames) :
    callToolBody u name args =
      (.error (.valueError ("Unknown tool: " ++ name)), []) ∧
    (callToolResult u name args).1 =
      .failure (.valueError ("Unknown tool: " ++ name)) ∧
    (ClientError.valueError ("Unknown tool: " ++ name)).kind = .InvalidRequest ∧
    handle_call_tool u name args = ["Error: " ++ ("Unknown tool: " ++ name)] := by
  simp only [toolNames, List.mem_cons, List.not_mem_nil, or_false, not_or] at h
  obtain ⟨h1, h2, h3, h4, h5, h6, h7, h8, h9, h10, h11⟩ := h
  have hbody : callToolBody u name args =
      (.error (.valueError ("Unknown tool: " ++ name)), []) := by
    simp only [callToolBody, beq_eq_false_iff_ne.mpr h1,
      beq_eq_false_iff_ne.mpr h2, beq_eq_false_iff_ne.mpr h3,
      beq_eq_false_iff_ne.mpr h4, beq_eq_false_iff_ne.mpr h5,
      beq_eq_false_iff_ne.mpr h6, beq_eq_false_iff_ne.mpr h7,
      beq_eq_false_iff_ne.mpr h8, beq_eq_false_iff_ne.mpr h9,
      beq_eq_false_iff_ne.mpr h10, beq_eq_false_iff_ne.mpr h11,
      Bool.false_eq_true, if_false]
  refine ⟨hbody, ?_, rfl, ?_⟩
  · simp [callToolResult, hbody, finishResult]
  · simp [handle_call_tool, callToolResult, hbody, finishResult, renderResult,
      errorText]

/-- Witness for C3 at the concrete unknown name `does_not_exist` with an
empty bundle. -/
theorem unknown_tool_invalid_request_witness :
    ("does_not_exist" ∉ toolNames) ∧
    handle_call_tool okUpstream "does_not_exist" none =
      ["Error: " ++ ("Unknown tool: " ++ "does_not_exist")] :=
  ⟨by decide,
   (unknown_tool_invalid_request okUpstream "does_not_exist" none
      (by decide)).2.2.2⟩

/-- C4: for `list_victims` with a bundle containing none of the five
filters, dispatch fails with the at-least-one-filter `ValueError`
(classified `InvalidRequest`) and the upstream request log is empty: the
cross-field constraint is checked before any network call. -/
theorem listVictims_no_filter_no_upstream (u : Upstream) (args : Bundle)
    (hg : bget args "group" = none) (hs : bget args "sector" = none)
    (hc : bget args "country" = none) (hy : bget args "year" = none)
    (hm : bget args "month" = none) :
    callToolBody u "list_victims" args =
      (.error (.valueError RansomwareLiveAPI.filterRequiredMsg), []) ∧
    (callToolResult u "list_victims" args).1 =
      .failure (.valueError RansomwareLiveAPI.filterRequiredMsg) ∧
    (callToolBody u "list_victims" args).2.length = 0 := by
  have e1 : (if bundleFalsy args then none else bget args "group") = none := by
    cases bundleFalsy args <;> simp [hg]
  have e2 : (if bundleFalsy args then none else bget args "sector") = none := by
    cases bundleFalsy args <;> simp [hs]
  have e3 : (if bundleFalsy args then none else bget args "country") = none := by
    cases bundleFalsy args <;> simp [hc]
  have e4 : (if bundleFalsy args then none else bget args "year") = none := by
    cases bundleFalsy args <;> simp [hy]
  have e5 : (if bundleFalsy args then none else bget args "month") = none := by
    cases bundleFalsy args <;> simp [hm]
  have hbody : callToolBody u "list_victims" args =
      (.error (.valueError RansomwareLiveAPI.filterRequiredMsg), []) := by
    simp [callToolBody, e1, e2, e3, e4, e5, truthyS]
  exact ⟨hbody, by simp [callToolResult, hbody, finishResult],
    by simp [hbody]⟩

/-- Witness for C4 at the concrete bundle `{"foo": "bar"}`, which contains
none of the five filters. -/
theorem listVictims_no_filter_no_upstream_witness :
    (callToolResult okUpstream "list_victims" (some [("foo", "bar")])).1 =
      .failure (.valueError RansomwareLiveAPI.filterRequiredMsg) ∧
    (callToolBody okUpstream "list_victims" (some [("foo", "bar")])).2.length = 0 :=
  ⟨(listVictims_no_filter_no_upstream okUpstream (some [("foo", "bar")])
      rfl rfl rfl rfl rfl).2.1,
   (listVictims_no_filter_no_upstream okUpstream (some [("foo", "bar")])
      rfl rfl rfl rfl rfl).2.2⟩

/-- C8: for `get_recent_victims` with an empty or absent bundle, the
`order` parameter defaults to `discovered` and the one bound upstream
request is path `/victims/recent` with query `order=discovered`. -/
theorem recent_victims_default_order (u : Upstream) (args : Bundle)
    (h : args = none ∨ args = some []) :
    callToolBody u "get_recent_victims" args =
      (apiIssue u ⟨"/victims/recent", [("order", "discovered")]⟩,
       [⟨"/victims/recent", [("order", "discovered")]⟩]) := by
  rcases h with h | h <;> subst h <;> rfl

/-- Witness for C8 at the absent bundle. -/
theorem recent_victims_default_order_witness :
    callToolBody okUpstream "get_recent_victims" none =
      (apiIssue okUpstream ⟨"/victims/recent", [("order", "discovered")]⟩,
       [⟨"/victims/recent", [("order", "discovered")]⟩]) :=
  recent_victims_default_order okUpstream none (Or.inl rfl)

/-- C2: the inputSchema advertised by `handle_list_tools` declares the
four-digit `yearPattern` and the 01-12 `monthPattern` for `list_victims`,
and `"99"` and `"13"` violate them, yet `handle_call_tool` performs no
pattern validation: it forwards `year="99"` (and `month="13"`) to the
upstream as query parameters instead of failing with `InvalidRequest`,
and the call succeeds against a 200-upstream double. -/
theorem listVictims_declared_patterns_not_enforced :
    matchesYearPattern "99" = false ∧
    matchesMonthPattern "13" = false ∧
    (callToolBody okUpstream "list_victims" (some [("year", "99")])).2 =
      [⟨"/victims", [("year", "99")]⟩] ∧
    (callToolResult okUpstream "list_victims" (some [("year", "99")])).1 =
      .success (.arr [.num 1]) ∧
    (callToolBody okUpstream "list_victims" (some [("month", "13")])).2 =
      [⟨"/victims", [("month", "13")]⟩] :=
  ⟨rfl, rfl, by decide, rfl, by decide⟩

/-- Counterexample to C5: when the upstream returns status 404 with body
`{"error":"not found"}`, the failure message of dispatch is
`API Error 404: {"error":"not found"}`, not the claimed verbatim
`status 404: {"error":"not found"}`. -/
theorem upstream_error_message_counterexample :
    (callToolResult notFoundUpstream "get_stats" none).1 =
      .failure (.httpStatusError 404 "\x7b\"error\":\"not found\"\x7d") ∧
    errorText (.httpStatusError 404 "\x7b\"error\":\"not found\"\x7d") =
      "API Error 404: \x7b\"error\":\"not found\"\x7d" ∧
    errorText (.httpStatusError 404 "\x7b\"error\":\"not found\"\x7d") ≠
      "status 404: \x7b\"error\":\"not found\"\x7d" ∧
    handle_call_tool notFoundUpstream "get_stats" none ≠
      ["status 404: \x7b\"error\":\"not found\"\x7d"] :=
  ⟨rfl, rfl, by decide, by decide⟩

/-- C5 as amended: for any operation whose dispatch reaches the upstream,
an HTTP status >= 400 with body `<body>` yields
`Failure{UpstreamError, "API Error <code>: <body>"}` rendered with the
`Error: ` prefix; the original status code and raw body are preserved. -/
theorem upstream_error_status_and_body (u : Upstream) (name : String)
    (args : Bundle) (status : Nat) (body : String) (parsed : Except String Json)
    (hu : ∀ r, u r = .response status body parsed) (hstatus : 400 ≤ status)
    (hcall : (callToolBody u name args).2 ≠ []) :
    (callToolResult u name args).1 = .failure (.httpStatusError status body) ∧
    (ClientError.httpStatusError status body).kind = .UpstreamError ∧
    handle_call_tool u name args =
      ["Error: " ++ ("API Error " ++ toString status ++ ": " ++ body)] := by
  rcases callToolBody_shape u name args with ⟨e, he⟩ | ⟨r, hr⟩
  · simp [he] at hcall
  · have hres : apiIssue u r = .error (.httpStatusError status body) := by
      simp [apiIssue, hu r, hstatus]
    refine ⟨?_, rfl, ?_⟩
    · simp [callToolResult, hr, hres, finishResult]
    · simp [handle_call_tool, callToolResult, hr, hres, finishResult,
        renderResult, errorText]

/-- Witness for C5 as amended: the 404 double against `list_groups` with an
absent bundle. -/
theorem upstream_error_status_and_body_witness :
    (callToolResult notFoundUpstream "list_groups" none).1 =
      .failure (.httpStatusError 404 "\x7b\"error\":\"not found\"\x7d") ∧
    (ClientError.httpStatusError 404 "\x7b\"error\":\"not found\"\x7d").kind =
      .UpstreamError ∧
    handle_call_tool notFoundUpstream "list_groups" none =
      ["Error: " ++ ("API Error " ++ toString 404 ++ ": " ++
        "\x7b\"error\":\"not found\"\x7d")] :=
  upstream_error_status_and_body notFoundUpstream "list_groups" none 404
    "\x7b\"error\":\"not found\"\x7d"
    (.ok (.obj [("error", .str "not found")])) (fun _ => rfl) (by decide)
    (by decide)

/-- Counterexample to C6: for `get_group_info` with the required field
present but empty (`group_name=""`), dispatch does not fail with
`InvalidRequest`: the presence-only check passes, the upstream client is
invoked with path `/groups/`, and the call succeeds against a
200-upstream double. -/
theorem required_empty_value_reaches_upstream :
    (callToolBody okUpstream "get_group_info" (some [("group_name", "")])).2 =
      [⟨"/groups/", []⟩] ∧
    (callToolResult okUpstream "get_group_info" (some [("group_name", "")])).1 =
      .success (.arr [.num 1]) :=
  ⟨by decide, rfl⟩

/-- C6 as amended: for every operation with required fields, a bundle in
which a required field is absent yields the matching `ValueError`
(classified `InvalidRequest`) with an empty upstream request log; a
present-but-empty value is not rejected (see the counterexample). -/
theorem required_field_absent_invalid (u : Upstream) (args : Bundle) :
    (bget args "group_name" = none →
      callToolBody u "get_group_info" args =
        (.error (.valueError "group_name is required"), []) ∧
      callToolBody u "get_ransomnotes_by_group" args =
        (.error (.valueError "group_name is required"), [])) ∧
    (bget args "victim_id" = none →
      callToolBody u "get_victim_info" args =
        (.error (.valueError "victim_id is required"), [])) ∧
    (bget args "query" = none →
      callToolBody u "search_victims" args =
        (.error (.valueError "query is required"), [])) ∧
    (bget args "group_name" = none ∨ bget args "note_name" = none →
      ∃ m, callToolBody u "get_ransomnote_content" args =
        (.error (.valueError m), [])) := by
  refine ⟨fun hg => ⟨?_, ?_⟩, fun hv => ?_, fun hq => ?_, fun hn => ?_⟩
  · cases hb : bundleFalsy args <;> simp [callToolBody, hb, hg]
  · cases hb : bundleFalsy args <;> simp [callToolBody, hb, hg]
  · cases hb : bundleFalsy args <;> simp [callToolBody, hb, hv]
  · cases hb : bundleFalsy args <;> simp [callToolBody, hb, hq]
  · rcases hn with hn | hn
    · cases hb : bundleFalsy args
      · cases hg2 : bget args "group_name"
        · exact ⟨"group_name is required", by simp [callToolBody, hb, hg2]⟩
        · rw [hn] at hg2; cases hg2
      · exact ⟨"group_name and note_name are required",
          by simp [callToolBody, hb]⟩
    · cases hb : bundleFalsy args
      · cases hg2 : bget args "group_name"
        · exact ⟨"group_name is required", by simp [callToolBody, hb, hg2]⟩
        · exact ⟨"note_name is required", by simp [callToolBody, hb, hg2, hn]⟩
      · exact ⟨"group_name and note_name are required",
          by simp [callToolBody, hb]⟩

/-- Witness for C6 as amended: a nonempty bundle with an unrelated key, so
every required field is absent. -/
theorem required_field_absent_invalid_witness :
    callToolBody okUpstream "get_group_info" (some [("x", "y")]) =
      (.error (.valueError "group_name is required"), []) ∧
    callToolBody okUpstream "get_victim_info" (some [("x", "y")]) =
      (.error (.valueError "victim_id is required"), []) ∧
    callToolBody okUpstream "search_victims" (some [("x", "y")]) =
      (.error (.valueError "query is required"), []) ∧
    ∃ m, callToolBody okUpstream "get_ransomnote_content" (some [("x", "y")]) =
      (.error (.valueError m), []) :=
  ⟨((required_field_absent_invalid okUpstream (some [("x", "y")])).1 rfl).1,
   (required_field_absent_invalid okUpstream (some [("x", "y")])).2.1 rfl,
   (required_field_absent_invalid okUpstream (some [("x", "y")])).2.2.1 rfl,
   (required_field_absent_invalid okUpstream (some [("x", "y")])).2.2.2
     (Or.inl rfl)⟩

/-- Counterexample to C7: for a success status with the syntactically
valid JSON body `[]` (an empty list), dispatch does not return a plain
Success: Python truthiness routes every falsy payload to the
`No data returned from API` sentinel. -/
theorem falsy_payload_sentinel_counterexample :
    (callToolResult emptyListUpstream "get_stats" none).1 = .noData ∧
    (callToolResult emptyListUpstream "get_stats" none).1.isSuccess = false ∧
    handle_call_tool emptyListUpstream "get_stats" none =
      ["No data returned from API"] :=
  ⟨rfl, rfl, rfl⟩

/-- C7 as amended: for any operation whose dispatch reaches the upstream,
a success status (< 400) with a parseable JSON body yields `Success`
wrapping the payload exactly when the payload is Python-truthy; falsy
payloads (including the empty list, which is not truthy) yield the
no-data sentinel instead. -/
theorem success_payload_truthiness (u : Upstream) (name : String)
    (args : Bundle) (status : Nat) (body : String) (j : Json)
    (hu : ∀ r, u r = .response status body (.ok j)) (hstatus : status < 400)
    (hcall : (callToolBody u name args).2 ≠ []) :
    (callToolResult u name args).1 =
      (if jsonTruthy j then .success j else .noData) ∧
    jsonTruthy (.arr []) = false := by
  rcases callToolBody_shape u name args with ⟨e, he⟩ | ⟨r, hr⟩
  · simp [he] at hcall
  · have hres : apiIssue u r = .ok j := by
      simp [apiIssue, hu r, Nat.not_le.mpr hstatus]
    exact ⟨by simp [callToolResult, hr, hres, finishResult], rfl⟩

/-- Witness for C7 as amended: a 200 double returning the empty list
against `get_stats`, landing on the sentinel side of the disjunction. -/
theorem success_payload_truthiness_witness :
    (callToolResult emptyListUpstream "get_stats" none).1 =
      (if jsonTruthy (.arr []) then .success (.arr []) else .noData) ∧
    jsonTruthy (.arr []) = false :=
  success_payload_truthiness emptyListUpstream "get_stats" none 200 "[]"
    (.arr []) (fun _ => rfl) (by decide) (by decide)

/-- C9: dispatch is deterministic: against a stateful upstream double
whose responses do not depend on its hidden state, running the same
(name, bundle) dispatch twice in sequence yields identical envelopes; no
hidden state influences the result between calls. -/
theorem dispatch_deterministic {σ : Type} (u : UpstreamS σ) (name : String)
    (args : Bundle) (s0 : σ) (h : ∀ r s s', (u r s).1 = (u r s').1) :
    (callToolS u name args (callToolS u name args s0).2).1 =
      (callToolS u name args s0).1 := by
  have hc : ∀ s : σ, clientAt u s = clientAt u s0 := fun s =>
    funext fun r => h r s s0
  simp only [callToolS]
  rw [hc]

/-- Witness for C9: the counting double (state-independent responses,
state counts issued requests) on `get_stats`. -/
theorem dispatch_deterministic_witness :
    (callToolS countingUpstream "get_stats" none
        (callToolS countingUpstream "get_stats" none 0).2).1 =
      (callToolS countingUpstream "get_stats" none 0).1 :=
  dispatch_deterministic countingUpstream "get_stats" none 0
    (fun _ _ _ => rfl)

/-- C10: for `list_victims`, an optional filter supplied as the empty
string is treated exactly as absent: the query-parameter builder drops
it (first conjunct), a bundle whose filter entries are all absent or
empty strings is rejected with the at-least-one-filter failure without
contacting the upstream (second conjunct), and a concrete bundle with
`group=""` and `year="2024"` binds only `year` (third conjunct). -/
theorem listVictims_empty_string_filter (u : Upstream) (args : Bundle)
    (h : ∀ k, k ∈ ["group", "sector", "country", "year", "month"] →
      bget args k = none ∨ bget args k = some "") :
    (∀ k, RansomwareLiveAPI.pushIf k (some "") = RansomwareLiveAPI.pushIf k none) ∧
    callToolBody u "list_victims" args =
      (.error (.valueError RansomwareLiveAPI.filterRequiredMsg), []) ∧
    callToolBody u "list_victims" (some [("group", ""), ("year", "2024")]) =
      (apiIssue u ⟨"/victims", [("year", "2024")]⟩,
       [⟨"/victims", [("year", "2024")]⟩]) := by
  have t : ∀ k, k ∈ ["group", "sector", "country", "year", "month"] →
      truthyS (if bundleFalsy args then none else bget args k) = false := by
    intro k hk
    rcases h k hk with hk1 | hk1 <;> cases hb : bundleFalsy args <;>
      simp [truthyS, hk1]
  have t1 := t "group" (by simp)
  have t2 := t "sector" (by simp)
  have t3 := t "country" (by simp)
  have t4 := t "year" (by simp)
  have t5 := t "month" (by simp)
  refine ⟨fun k => by simp [RansomwareLiveAPI.pushIf], ?_, rfl⟩
  simp [callToolBody, t1, t2, t3, t4, t5]

/-- Witness for C10: the bundle whose only filter entry is `group=""`. -/
theorem listVictims_empty_string_filter_witness :
    (∀ k, RansomwareLiveAPI.pushIf k (some "") = RansomwareLiveAPI.pushIf k none) ∧
    callToolBody okUpstream "list_victims" (some [("group", "")]) =
      (.error (.valueError RansomwareLiveAPI.filterRequiredMsg), []) ∧
    callToolBody okUpstream "list_victims" (some [("group", ""), ("year", "2024")]) =
      (apiIssue okUpstream ⟨"/victims", [("year", "2024")]⟩,
       [⟨"/victims", [("year", "2024")]⟩]) :=
  listVictims_empty_string_filter okUpstream (some [("group", "")]) (by decide)
